import Mathlib

/-!
A verification development for the newrelic-mcp repository.

The GraphQL client (src/client/newrelic-client.ts) is embedded directly from
its source.  The REST client and the REST tool adapters (rest-client.ts and
tools/rest) are not present in the source tree, only their tests and callers
are; the definitions for those components are modelled from the spec and say
so in their doc comments.

Conventions of the shallow embedding: JS strings are Lean String, possibly
absent values are Option, JS falsiness of a string is equality with the empty
string, thrown errors are the .error side of Except carrying the message, and
the HTTP layer is an explicit fetch function passed in.  Functions that the
source runs for effect additionally return how many upstream calls they made.
-/

namespace NewRelic

/-! ## Region resolution (src/src/client/newrelic-client.ts, test/utils/region-helpers.ts) -/

/-- JS s.toUpperCase(), character-wise over the string (the inputs involved are
ASCII region tokens). -/
def strToUpper (s : String) : String :=
  String.mk (s.toList.map Char.toUpper)

/-- JS s.toLowerCase(), character-wise over the string. -/
def strToLower (s : String) : String :=
  String.mk (s.toList.map Char.toLower)

/-- From getNerdGraphUrl in newrelic-client.ts: the region token EU selects the
eu-qualified GraphQL host, any other token selects the default host. -/
def getNerdGraphUrl (region : String) : String :=
  if region = "EU" then "https://api.eu.newrelic.com/graphql"
  else "https://api.newrelic.com/graphql"

/-- The module-load expression of newrelic-client.ts line 19: the environment
region upper-cased, with an absent variable or an empty string falling back to
US. -/
def resolveRegionToken : Option String → String
  | none => "US"
  | some s => if strToUpper s = "" then "US" else strToUpper s

/-- The module-level constant NERDGRAPH_URL, computed once from the environment
region at module load. -/
def nerdgraphUrlFor (envRegion : Option String) : String :=
  getNerdGraphUrl (resolveRegionToken envRegion)

/-- From getRegionSubdomain in test/utils/region-helpers.ts: ".eu" exactly when
the environment region upper-cases to EU, otherwise the empty subdomain. -/
def getRegionSubdomain (envRegion : Option String) : String :=
  if envRegion.map strToUpper = some "EU" then ".eu" else ""

/-! ## Client construction (NewRelicClient in newrelic-client.ts) -/

/-- The process environment variables the client reads. -/
structure Env where
  region : Option String
  apiKey : Option String
  accountId : Option String

/-- The fields of a NewRelicClient instance.  The constructor declares exactly
these two; there is no region field. -/
structure NewRelicClient where
  apiKey : String
  defaultAccountId : Option String
  deriving DecidableEq

/-- JS short-circuit disjunction a || b over possibly-absent strings, where the
empty string is falsy. -/
def jsOr (a b : Option String) : Option String :=
  match a with
  | none => b
  | some s => if s = "" then b else some s

/-- The two-parameter constructor of NewRelicClient: the key falls back to the
NEW_RELIC_API_KEY environment variable and then to the empty string; the
default account id falls back to NEW_RELIC_ACCOUNT_ID. -/
def mkClient (env : Env) (apiKeyArg acctArg : Option String) : NewRelicClient :=
  { apiKey := (jsOr apiKeyArg env.apiKey).getD ""
  , defaultAccountId := jsOr acctArg env.accountId }

/-- The three-argument call site in the HTTP server (createSessionFromHeaders
passes a region as a third argument).  JS drops arguments beyond the declared
parameter list before the constructor body runs, so the region argument never
reaches the instance. -/
def mkClient3 (env : Env) (apiKeyArg acctArg regionArg : Option String) : NewRelicClient :=
  mkClient env apiKeyArg acctArg

/-! ## String containment (JS String.prototype.includes) -/

/-- Whether the second character list occurs at the start of the first. -/
def startsWithChars : List Char → List Char → Bool
  | _, [] => true
  | [], _ :: _ => false
  | c :: cs, d :: ds => c = d && startsWithChars cs ds

/-- Whether the second character list occurs anywhere inside the first. -/
def hasSubChars : List Char → List Char → Bool
  | hay, needle =>
    match hay with
    | [] => needle.isEmpty
    | c :: cs => startsWithChars (c :: cs) needle || hasSubChars cs needle

/-- JS hay.includes(needle): substring occurrence, case-sensitive. -/
def strIncludes (hay needle : String) : Bool :=
  hasSubChars hay.toList needle.toList

/-! ## GraphQL transport (NewRelicClient.executeNerdGraphQuery) -/

/-- A GraphQL error entry; only the message field is read by the client. -/
structure GraphQLError where
  message : String
  deriving DecidableEq

/-- The GraphQL response envelope, both fields optional as in the source. -/
structure GraphQLResponse (α : Type) where
  data : Option α
  errors : Option (List GraphQLError)
  deriving DecidableEq

/-- What the fetch API hands back before body parsing: status, status text and
the parsed JSON body (the embedding parses eagerly since only ok responses
reach response.json()). -/
structure FetchResponse (α : Type) where
  status : Nat
  statusText : String
  body : α

/-- The fetch API ok flag: status between 200 and 299 inclusive. -/
def respOk (status : Nat) : Bool :=
  200 ≤ status && status ≤ 299

/-- The message thrown when the API key is missing or empty at call time. -/
def missingKeyMsg : String := "NEW_RELIC_API_KEY environment variable is not set"

/-- The message thrown on a transport-level 401. -/
def unauthorizedMsg : String := "Unauthorized: Invalid API key"

/-- The message thrown on any other non-2xx transport status. -/
def transportErrMsg (status : Nat) (statusText : String) : String :=
  "NerdGraph API error: " ++ toString status ++ " " ++ statusText

/-- NewRelicClient.executeNerdGraphQuery: check the api key field, send the
request, normalize non-2xx statuses into errors, otherwise return the parsed
envelope.  The second component counts requests actually sent, so the key
check demonstrably happens before any request. -/
def executeNerdGraphQuery (client : NewRelicClient)
    (fetch : Unit → FetchResponse (GraphQLResponse α)) :
    Except String (GraphQLResponse α) × Nat :=
  if client.apiKey = "" then (.error missingKeyMsg, 0)
  else
    let resp := fetch ()
    if respOk resp.status then (.ok resp.body, 1)
    else if resp.status = 401 then (.error unauthorizedMsg, 1)
    else (.error (transportErrMsg resp.status resp.statusText), 1)

/-- The concrete request executeNerdGraphQuery sends when the key check passes:
it always targets the module-level NERDGRAPH_URL computed from the
environment region, never a per-client or per-session URL. -/
structure SentRequest where
  url : String
  apiKeyHeader : String
  deriving DecidableEq

/-- The request sent by a call of executeNerdGraphQuery on a given client, or
none when the key check fails before sending. -/
def nerdgraphRequest (env : Env) (client : NewRelicClient) : Option SentRequest :=
  if client.apiKey = "" then none
  else some { url := nerdgraphUrlFor env.region, apiKeyHeader := client.apiKey }

/-! ## NRQL query execution (NewRelicClient.runNrqlQuery) -/

/-- The nrql node of the nested NerdGraph response, generic in the row type ρ
and the metadata type μ (the client forwards both without inspecting them). -/
structure NrqlNode (ρ μ : Type) where
  results : Option (List ρ)
  metadata : Option μ
  deriving DecidableEq

/-- The account level of the nested response. -/
structure NrqlAccount (ρ μ : Type) where
  nrql : Option (NrqlNode ρ μ)
  deriving DecidableEq

/-- The actor level of the nested response. -/
structure NrqlActor (ρ μ : Type) where
  account : Option (NrqlAccount ρ μ)
  deriving DecidableEq

/-- The data level of the nested response. -/
structure NrqlData (ρ μ : Type) where
  actor : Option (NrqlActor ρ μ)
  deriving DecidableEq

/-- The value runNrqlQuery returns: results array (empty when absent), the
metadata object forwarded as-is, and the synthesized timeSeries flag. -/
structure NrqlQueryResult (ρ μ : Type) where
  results : List ρ
  metadata : Option μ
  timeSeries : Bool
  deriving DecidableEq

/-- The optional-chaining access response.data?.actor?.account?.nrql. -/
def nrqlNodeOf (response : GraphQLResponse (NrqlData ρ μ)) : Option (NrqlNode ρ μ) :=
  ((response.data.bind (·.actor)).bind (·.account)).bind (·.nrql)

/-- The catch clause of runNrqlQuery: any error whose message contains the
phrase Syntax error is rethrown with the NRQL Syntax error label prepended. -/
def relabelSyntax (msg : String) : String :=
  if strIncludes msg "Syntax error" then "NRQL Syntax error: " ++ msg else msg

/-- The body of NewRelicClient.runNrqlQuery after argument validation and
transport, applied to the parsed envelope.  The try block throws when the
errors field is present (an empty present array is truthy in JS, so it throws
the fallback message), then resolves the nested nrql node, then builds the
result with the heuristic timeSeries flag; the catch clause relabels syntax
errors. -/
def runNrqlQueryOnResponse (nrql : String) (response : GraphQLResponse (NrqlData ρ μ)) :
    Except String (NrqlQueryResult ρ μ) :=
  let attempt : Except String (NrqlQueryResult ρ μ) :=
    match response.errors with
    | some errs =>
        .error (match errs.head? with
          | some e => if e.message = "" then "NRQL query failed" else e.message
          | none => "NRQL query failed")
    | none =>
        match nrqlNodeOf response with
        | none => .error "No results returned from NRQL query"
        | some node =>
            .ok { results := node.results.getD []
                , metadata := node.metadata
                , timeSeries := strIncludes (strToLower nrql) "timeseries" }
  match attempt with
  | .ok r => .ok r
  | .error m => .error (relabelSyntax m)

/-! ## REST responses and the auto-pagination engine

The REST client (src/client/rest-client.ts) and the REST tools
(src/tools/rest) are missing from the source tree; only their tests and the
HTTP server caller are present.  The definitions below are modelled from the
spec, sections 3, 4.2, 4.4 and 4.5. -/

/-- Modelled from the spec: RestResponse of section 3, produced by the missing
src/client/rest-client.ts.  Its status, data array and links mapping of
relation name to the page parameter handed back to the page-fetch function (a
URL string in the real client; abstract here exactly as the engine contract of
section 4.4 states it). -/
structure RestResponse (π α : Type) where
  status : Nat
  data : List α
  links : List (String × π)

/-- The next relation of a page, looked up in its links mapping. -/
def linkNext (r : RestResponse π α) : Option π :=
  (r.links.find? (fun kv => kv.1 == "next")).map (·.2)

/-- Modelled from the spec: the Auto-Pagination Engine of section 4.4, from the
missing src/tools/rest pagination helper.  Follow links.next until absent,
accumulating each page data array in fetch order.  The real loop is unbounded
(the spec notes it has no cycle guard); fuel bounds the number of extra page
fetches and none means the bound was reached before the chain ended.  The Nat
in the result counts the extra fetches performed past the given page. -/
def followPages (fetch : π → RestResponse π α) :
    Nat → RestResponse π α → Option (List α × Nat)
  | 0, page =>
    match linkNext page with
    | none => some (page.data, 0)
    | some _ => none
  | f + 1, page =>
    match linkNext page with
    | none => some (page.data, 0)
    | some p =>
        (followPages fetch f (fetch p)).map (fun r => (page.data ++ r.1, r.2 + 1))

/-- Modelled from the spec: a REST list operation of section 4.4, from the
missing src/tools/rest adapters.  Fetch the first page, then either
auto-paginate or return the first page items verbatim, ignoring any next
relation.  The Nat in the result is the total number of upstream calls made,
the initial fetch included. -/
def runList (fetch : π → RestResponse π α) (firstParams : π) (autoPaginate : Bool)
    (fuel : Nat) : Option (List α × Nat) :=
  let first := fetch firstParams
  if autoPaginate then
    (followPages fetch fuel first).map (fun r => (r.1, r.2 + 1))
  else some (first.data, 1)

/-- A concrete upstream of pages for instantiating the engine: page i carries
the i-th data array and links next to page i+1 while one exists.  Page
parameters are page indices. -/
def chainPage (datas : List (List α)) (i : Nat) : RestResponse Nat α :=
  { status := 200
  , data := datas.getD i []
  , links := if i + 1 < datas.length then [("next", i + 1)] else [] }

/-! ## Alert incidents adapter (modelled from the spec, section 4.5) -/

/-- Modelled from the spec: an alert incident record as the client-side filters
of listIncidents read it; closed_at is 0 when the upstream value is zero or
absent (JS falsy). -/
structure Incident where
  id : Nat
  priority : String
  closed_at : Nat
  deriving DecidableEq

/-- Modelled from the spec: the two client-side-only filters of listIncidents,
applied to the already-concatenated items; only_open keeps items whose
closed_at is falsy, priority keeps items whose priority field is
case-sensitively equal to the given value. -/
def incidentFilters (only_open : Bool) (priority : Option String)
    (items : List Incident) : List Incident :=
  let afterOpen := if only_open then items.filter (fun i => i.closed_at == 0) else items
  match priority with
  | none => afterOpen
  | some p => afterOpen.filter (fun i => i.priority == p)

/-- Modelled from the spec: RestAlertsTool.listIncidents from the missing
src/tools/rest/alerts.ts.  Fetch all requested pages through the engine, then
apply the client-side filters to the full concatenation, strictly after all
pages have been fetched. -/
def listIncidents (fetch : Nat → RestResponse Nat Incident) (firstParams : Nat)
    (auto_paginate only_open : Bool) (priority : Option String) (fuel : Nat) :
    Option (List Incident × Nat) :=
  (runList fetch firstParams auto_paginate fuel).map
    (fun r => (incidentFilters only_open priority r.1, r.2))

/-! ## Deployments adapter (modelled from the spec, section 4.5) -/

/-- The arguments of the delete-deployment operation; confirm is optional. -/
structure DeleteArgs where
  application_id : Nat
  id : Nat
  confirm : Option Bool
  deriving DecidableEq

/-- The deployment resource path of the DELETE request. -/
def deploymentPath (applicationId id : Nat) : String :=
  "/applications/" ++ toString applicationId ++ "/deployments/" ++ toString id

/-- The PreconditionError message of the delete gate. -/
def confirmErrMsg : String :=
  "PreconditionError: confirm must be true to delete a deployment"

/-- Modelled from the spec: RestDeploymentsTool.delete from the missing
src/tools/rest/deployments.ts.  The adapter refuses with a PreconditionError
when confirm is absent or falsy, before any upstream call; with confirm true
it issues exactly one DELETE against the deployment path.  The second
component lists the upstream DELETE paths issued, in order. -/
def deleteDeployment (performDelete : String → RestResponse Unit α)
    (args : DeleteArgs) : Except String (RestResponse Unit α) × List String :=
  if args.confirm = some true then
    (.ok (performDelete (deploymentPath args.application_id args.id)),
      [deploymentPath args.application_id args.id])
  else
    (.error confirmErrMsg, [])

/-! ## Helper lemmas about the pagination chain -/

/-- The next relation of chain page i points to page i+1 exactly while further
pages exist. -/
theorem linkNext_chainPage (datas : List (List α)) (i : Nat) :
    linkNext (chainPage datas i)
      = if i + 1 < datas.length then some (i + 1) else none := by
  by_cases h : i + 1 < datas.length <;>
    simp [linkNext, chainPage, h]

/-- Splitting the flattened tail of the chain at page i. -/
theorem flatten_drop_chain (datas : List (List α)) (i : Nat) (h : i < datas.length) :
    (datas.drop i).flatten = datas.getD i [] ++ (datas.drop (i + 1)).flatten := by
  rw [List.drop_eq_getElem_cons h, List.flatten_cons, List.getD_eq_getElem?_getD,
    List.getElem?_eq_getElem h]
  rfl

/-- Running the engine from chain page i with enough fuel collects the data of
pages i, i+1, ... in order and performs one extra fetch per remaining page. -/
theorem followPages_chain (datas : List (List α)) :
    ∀ fuel i, i < datas.length → datas.length - i ≤ fuel + 1 →
      followPages (chainPage datas) fuel (chainPage datas i)
        = some ((datas.drop i).flatten, datas.length - i - 1) := by
  intro fuel
  induction fuel with
  | zero =>
      intro i hi hf
      have hlast : ¬ (i + 1 < datas.length) := by omega
      have hdrop : datas.drop (i + 1) = [] :=
        List.drop_eq_nil_of_le (by omega)
      simp only [followPages, linkNext_chainPage, if_neg hlast]
      rw [flatten_drop_chain datas i hi, hdrop]
      simp [chainPage]
      omega
  | succ f ih =>
      intro i hi hf
      by_cases hnext : i + 1 < datas.length
      · simp only [followPages, linkNext_chainPage, if_pos hnext]
        rw [ih (i + 1) hnext (by omega)]
        rw [flatten_drop_chain datas i hi]
        simp [chainPage]
        omega
      · have hdrop : datas.drop (i + 1) = [] :=
          List.drop_eq_nil_of_le (by omega)
        simp only [followPages, linkNext_chainPage, if_neg hnext]
        rw [flatten_drop_chain datas i hi, hdrop]
        simp [chainPage]
        omega

/-- An auto-paginated list over the whole chain returns the flattening of all
pages and makes one upstream call per page. -/
theorem runList_chain (datas : List (List α)) (fuel : Nat)
    (h0 : datas ≠ []) (hfuel : datas.length ≤ fuel + 1) :
    runList (chainPage datas) 0 true fuel = some (datas.flatten, datas.length) := by
  have hlen : 0 < datas.length := List.length_pos.2 h0
  have h := followPages_chain datas fuel 0 hlen (by omega)
  rw [runList, if_pos rfl, h]
  simp
  omega

/-- The summed lengths of equal-length blocks. -/
theorem sum_map_length_const (k : Nat) (l : List (List α))
    (h : ∀ d ∈ l, d.length = k) : (l.map List.length).sum = l.length * k := by
  induction l with
  | nil => simp
  | cons d t ih =>
      have hd : d.length = k := h d (List.mem_cons_self _ _)
      have ht := ih (fun x hx => h x (List.mem_cons_of_mem _ hx))
      simp [hd, ht, Nat.succ_mul, Nat.add_comm]

/-! ## Claim theorems -/

/-- C1: for every REST list operation with auto_paginate true, the engine
follows links.next of each page until it is absent and returns the
concatenation of every page data array in fetch order (one upstream call per
page); for N pages of k items each with no client-side filter, the result has
exactly N times k items. -/
theorem autoPaginate_collects_all_pages (datas : List (List α)) (k fuel : Nat)
    (h0 : datas ≠ []) (hfuel : datas.length ≤ fuel + 1)
    (hk : ∀ d ∈ datas, d.length = k) :
    runList (chainPage datas) 0 true fuel = some (datas.flatten, datas.length)
    ∧ datas.flatten.length = datas.length * k := by
  refine ⟨runList_chain datas fuel h0 hfuel, ?_⟩
  rw [List.length_flatten, sum_map_length_const k datas hk]

/-- C1 witness: three pages of two items each, all collected in order. -/
theorem autoPaginate_collects_all_pages_witness :
    runList (chainPage [[1, 2], [3, 4], [5, 6]]) 0 true 2 = some ([1, 2, 3, 4, 5, 6], 3)
    ∧ ([[1, 2], [3, 4], [5, 6]] : List (List Nat)).flatten.length = 3 * 2 :=
  autoPaginate_collects_all_pages [[1, 2], [3, 4], [5, 6]] 2 2
    (by decide) (by decide) (by decide)

/-- C2: for every REST list operation with auto_paginate false, exactly one
upstream call is made and only the first page items are returned verbatim,
even when that page carries a next relation. -/
theorem noAutoPaginate_single_call (fetch : π → RestResponse π α) (p0 u : π)
    (fuel : Nat) (hnext : linkNext (fetch p0) = some u) :
    runList fetch p0 false fuel = some ((fetch p0).data, 1) := by
  simp [runList]

/-- C2 witness: a first page with a next relation, returned alone with one
call. -/
theorem noAutoPaginate_single_call_witness :
    runList (chainPage [[1, 2], [3, 4]]) 0 false 7 = some ([1, 2], 1) :=
  noAutoPaginate_single_call (chainPage [[1, 2], [3, 4]]) 0 1 7 (by decide)

/-- C3: listIncidents applies only_open (keep items with falsy closed_at) and
priority (keep items with case-sensitively equal priority) to the full
concatenated result after all requested pages have been fetched; an item
survives the filters exactly when it is in the concatenation and passes both
enabled filters. -/
theorem listIncidents_filters_after_pagination (datas : List (List Incident))
    (fuel : Nat) (only_open : Bool) (priority : Option String)
    (h0 : datas ≠ []) (hfuel : datas.length ≤ fuel + 1) :
    listIncidents (chainPage datas) 0 true only_open priority fuel
      = some (incidentFilters only_open priority datas.flatten, datas.length)
    ∧ ∀ x, x ∈ incidentFilters only_open priority datas.flatten ↔
        x ∈ datas.flatten ∧ (only_open = true → x.closed_at = 0)
          ∧ ∀ p, priority = some p → x.priority = p := by
  constructor
  · rw [listIncidents, runList_chain datas fuel h0 hfuel]
    rfl
  · intro x
    cases only_open <;> rcases priority with _ | p <;>
      simp [incidentFilters, List.mem_filter] <;> tauto

/-- C3 witness: two pages, the open HIGH incident survives, the closed LOW one
does not; the filters run on the concatenation of both pages. -/
theorem listIncidents_filters_after_pagination_witness :
    listIncidents (chainPage [[⟨1, "HIGH", 0⟩], [⟨2, "LOW", 123⟩]]) 0
        true true (some "HIGH") 1
      = some ([⟨1, "HIGH", 0⟩], 2) :=
  (listIncidents_filters_after_pagination [[⟨1, "HIGH", 0⟩], [⟨2, "LOW", 123⟩]]
    1 true (some "HIGH") (by decide) (by decide)).1

/-- C4: delete-deployment with confirm absent or falsy fails with the
PreconditionError and issues zero upstream calls; with confirm true it issues
exactly one DELETE against the deployment path. -/
theorem deleteDeployment_confirm_gate (performDelete : String → RestResponse Unit α)
    (args : DeleteArgs) :
    (args.confirm ≠ some true →
        deleteDeployment performDelete args = (.error confirmErrMsg, []))
    ∧ (args.confirm = some true →
        deleteDeployment performDelete args
          = (.ok (performDelete (deploymentPath args.application_id args.id)),
              [deploymentPath args.application_id args.id])) := by
  constructor <;> intro h <;> simp [deleteDeployment, h]

/-- C4 witness: confirm absent refuses with zero calls; confirm true issues the
single DELETE. -/
theorem deleteDeployment_confirm_gate_witness :
    deleteDeployment (fun _ => ({ status := 200, data := [()], links := [] } :
        RestResponse Unit Unit)) { application_id := 1, id := 2, confirm := none }
      = (.error confirmErrMsg, [])
    ∧ deleteDeployment (fun _ => ({ status := 200, data := [()], links := [] } :
        RestResponse Unit Unit)) { application_id := 1, id := 2, confirm := some true }
      = (.ok { status := 200, data := [()], links := [] }, [deploymentPath 1 2]) :=
  ⟨(deleteDeployment_confirm_gate _ _).1 (by decide),
   (deleteDeployment_confirm_gate _ _).2 rfl⟩

/-- C5: for every GraphQL transport call whose HTTP response is non-2xx,
status 401 fails with exactly the Unauthorized message and any other non-2xx
status fails with a message carrying the numeric status and the reason
phrase; a 2xx response never raises at transport level. -/
theorem transport_error_taxonomy (client : NewRelicClient)
    (fetch : Unit → FetchResponse (GraphQLResponse α)) (hkey : client.apiKey ≠ "") :
    ((fetch ()).status = 401 →
        executeNerdGraphQuery client fetch = (.error "Unauthorized: Invalid API key", 1))
    ∧ (respOk (fetch ()).status = false → (fetch ()).status ≠ 401 →
        executeNerdGraphQuery client fetch
          = (.error ("NerdGraph API error: " ++ toString (fetch ()).status ++ " "
              ++ (fetch ()).statusText), 1))
    ∧ (respOk (fetch ()).status = true →
        executeNerdGraphQuery client fetch = (.ok (fetch ()).body, 1)) := by
  refine ⟨fun h => ?_, fun h h4 => ?_, fun h => ?_⟩
  · have hnot : respOk (401 : Nat) = false := by decide
    simp [executeNerdGraphQuery, hkey, h, hnot, unauthorizedMsg]
  · simp [executeNerdGraphQuery, hkey, h, h4, transportErrMsg]
  · simp [executeNerdGraphQuery, hkey, h]

/-- C5 witness: a 401 yields the exact Unauthorized message, a 500 yields the
status and reason phrase, a 200 returns the envelope. -/
theorem transport_error_taxonomy_witness :
    executeNerdGraphQuery (α := Unit) ⟨"k", none⟩
        (fun _ => ⟨401, "Unauthorized", ⟨none, none⟩⟩)
      = (.error "Unauthorized: Invalid API key", 1)
    ∧ executeNerdGraphQuery (α := Unit) ⟨"k", none⟩
        (fun _ => ⟨500, "Internal Server Error", ⟨none, none⟩⟩)
      = (.error ("NerdGraph API error: " ++ toString 500 ++ " "
          ++ "Internal Server Error"), 1)
    ∧ executeNerdGraphQuery (α := Unit) ⟨"k", none⟩
        (fun _ => ⟨200, "OK", ⟨none, none⟩⟩)
      = (.ok ⟨none, none⟩, 1) :=
  ⟨(transport_error_taxonomy _ _ (by decide)).1 rfl,
   (transport_error_taxonomy _ _ (by decide)).2.1 (by decide) (by decide),
   (transport_error_taxonomy _ _ (by decide)).2.2 (by decide)⟩

/-- C6: the missing or empty API key check runs on every call before any
request is sent, failing with the configuration message and zero upstream
calls; a key written into the client after construction is read by the next
call, which then sends its request with that key. -/
theorem apiKey_checked_per_call (env : Env) (client : NewRelicClient)
    (fetch : Unit → FetchResponse (GraphQLResponse α)) (k : String) (hk : k ≠ "") :
    (client.apiKey = "" →
        executeNerdGraphQuery client fetch = (.error missingKeyMsg, 0)
        ∧ nerdgraphRequest env client = none)
    ∧ (executeNerdGraphQuery { client with apiKey := k } fetch).2 = 1
    ∧ nerdgraphRequest env { client with apiKey := k }
        = some { url := nerdgraphUrlFor env.region, apiKeyHeader := k } := by
  refine ⟨fun h => ?_, ?_, ?_⟩
  · constructor <;> simp [executeNerdGraphQuery, nerdgraphRequest, h]
  · have hne : ¬ (({ client with apiKey := k } : NewRelicClient).apiKey = "") := hk
    simp only [executeNerdGraphQuery, if_neg hne]
    split
    · rfl
    · split <;> rfl
  · simp [nerdgraphRequest, hk]

/-- C6 witness: an empty-key client fails before sending; after the key field
is set, the same client sends one request carrying the new key. -/
theorem apiKey_checked_per_call_witness :
    (executeNerdGraphQuery (α := Unit) ⟨"", none⟩ (fun _ => ⟨200, "OK", ⟨none, none⟩⟩)
        = (.error missingKeyMsg, 0)
      ∧ nerdgraphRequest ⟨some "eu", none, none⟩ ⟨"", none⟩ = none)
    ∧ (executeNerdGraphQuery (α := Unit) ⟨"fresh", none⟩
        (fun _ => ⟨200, "OK", ⟨none, none⟩⟩)).2 = 1
    ∧ nerdgraphRequest ⟨some "eu", none, none⟩ ⟨"fresh", none⟩
        = some ⟨nerdgraphUrlFor (some "eu"), "fresh"⟩ :=
  ⟨(apiKey_checked_per_call (α := Unit) ⟨some "eu", none, none⟩ ⟨"", none⟩
      (fun _ => ⟨200, "OK", ⟨none, none⟩⟩) "fresh" (by decide)).1 rfl,
   (apiKey_checked_per_call (α := Unit) ⟨some "eu", none, none⟩ ⟨"", none⟩
      (fun _ => ⟨200, "OK", ⟨none, none⟩⟩) "fresh" (by decide)).2.1,
   (apiKey_checked_per_call (α := Unit) ⟨some "eu", none, none⟩ ⟨"", none⟩
      (fun _ => ⟨200, "OK", ⟨none, none⟩⟩) "fresh" (by decide)).2.2⟩

/-- C7 counterexample: an envelope whose errors array is present but empty,
with valid data also present, still fails (with the fallback message), because
the source tests presence of the errors field, under which an empty array is
truthy; so failing is not equivalent to the errors array being present and
non-empty. -/
theorem runNrql_empty_errors_cex :
    runNrqlQueryOnResponse (ρ := Unit) (μ := Unit) "SELECT 1"
      { data := some ⟨some ⟨some ⟨some ⟨some [()], none⟩⟩⟩⟩, errors := some [] }
      = .error "NRQL query failed" := rfl

/-- C7 amended: runNrqlQuery fails whenever the errors array is present, even
empty; when non-empty with a non-empty first message it surfaces that message,
re-labeled as a syntax error exactly when the message contains the phrase
Syntax error; when errors is absent and the nrql node is present it succeeds
with the forwarded results and metadata. -/
theorem runNrql_errors_behavior (nrql : String)
    (response : GraphQLResponse (NrqlData ρ μ)) :
    (∀ errs, response.errors = some errs →
        ∃ m, runNrqlQueryOnResponse nrql response = .error m)
    ∧ (∀ e rest, response.errors = some (e :: rest) → e.message ≠ "" →
        runNrqlQueryOnResponse nrql response
          = .error (if strIncludes e.message "Syntax error"
                    then "NRQL Syntax error: " ++ e.message else e.message))
    ∧ (response.errors = none → ∀ node, nrqlNodeOf response = some node →
        runNrqlQueryOnResponse nrql response
          = .ok { results := node.results.getD []
                , metadata := node.metadata
                , timeSeries := strIncludes (strToLower nrql) "timeseries" }) := by
  refine ⟨fun errs h => ?_, fun e rest h hmsg => ?_, fun h node hnode => ?_⟩
  · simp [runNrqlQueryOnResponse, h]
  · simp [runNrqlQueryOnResponse, relabelSyntax, h, hmsg]
  · simp [runNrqlQueryOnResponse, h, hnode]

/-- C7 amended witness: a syntax-error message is surfaced re-labeled, a plain
message is surfaced verbatim, and an error-free envelope succeeds. -/
theorem runNrql_errors_behavior_witness :
    runNrqlQueryOnResponse (ρ := Unit) (μ := Unit) "SELECT 1"
      { data := none, errors := some [{ message := "Syntax error: oops" }] }
      = .error (if strIncludes "Syntax error: oops" "Syntax error"
                then "NRQL Syntax error: " ++ "Syntax error: oops"
                else "Syntax error: oops") :=
  (runNrql_errors_behavior (ρ := Unit) (μ := Unit) "SELECT 1"
      { data := none, errors := some [{ message := "Syntax error: oops" }] }).2.1
    { message := "Syntax error: oops" } [] rfl (by decide)

/-- C8: region resolution is pure and total; every region input other than
case-insensitive EU (absent and unrecognized tokens included) resolves to the
default US host and empty REST subdomain, and EU in any letter case resolves
to the EU-qualified host and .eu subdomain. -/
theorem region_resolution_total (envRegion : Option String) :
    ((∀ s, envRegion = some s → strToUpper s ≠ "EU") →
        nerdgraphUrlFor envRegion = "https://api.newrelic.com/graphql"
        ∧ getRegionSubdomain envRegion = "")
    ∧ (∀ s, envRegion = some s → strToUpper s = "EU" →
        nerdgraphUrlFor envRegion = "https://api.eu.newrelic.com/graphql"
        ∧ getRegionSubdomain envRegion = ".eu") := by
  constructor
  · intro h
    cases envRegion with
    | none => exact ⟨by decide, by decide⟩
    | some s =>
        have hs := h s rfl
        by_cases hemp : strToUpper s = ""
        · constructor
          · simp [nerdgraphUrlFor, resolveRegionToken, getNerdGraphUrl, hemp]
          · simp [getRegionSubdomain, hemp]
        · constructor
          · simp [nerdgraphUrlFor, resolveRegionToken, getNerdGraphUrl, hemp, hs]
          · simp [getRegionSubdomain, hs]
  · intro s hsome hEU
    subst hsome
    have hne : strToUpper s ≠ "" := by
      rw [hEU]; decide
    constructor
    · simp [nerdgraphUrlFor, resolveRegionToken, getNerdGraphUrl, hne, hEU]
    · simp [getRegionSubdomain, hEU]

/-- C8 witness: a lower-case eu resolves to the EU host and subdomain, an
unrecognized token to the US host and empty subdomain. -/
theorem region_resolution_total_witness :
    (nerdgraphUrlFor (some "eu") = "https://api.eu.newrelic.com/graphql"
      ∧ getRegionSubdomain (some "eu") = ".eu")
    ∧ (nerdgraphUrlFor (some "staging") = "https://api.newrelic.com/graphql"
      ∧ getRegionSubdomain (some "staging") = "") :=
  ⟨(region_resolution_total (some "eu")).2 "eu" rfl (by decide),
   (region_resolution_total (some "staging")).1
     (by intro s hs; cases hs; decide)⟩

/-- The constructed key is empty exactly when both the argument and the
environment variable are absent or empty. -/
theorem mkClient_apiKey_empty_iff (env : Env) (a b : Option String) :
    (mkClient env a b).apiKey = "" ↔
      ((a = none ∨ a = some "") ∧ (env.apiKey = none ∨ env.apiKey = some "")) := by
  rcases a with _ | s <;> rcases henv : env.apiKey with _ | t
  · simp [mkClient, jsOr, henv]
  · by_cases ht : t = "" <;> simp [mkClient, jsOr, henv, ht]
  · by_cases hs : s = "" <;> simp [mkClient, jsOr, henv, hs]
  · by_cases hs : s = "" <;> by_cases ht : t = "" <;>
      simp [mkClient, jsOr, henv, hs, ht]

/-- C9: the GraphQL endpoint URL is fixed once at module load from the
environment region, so every call from every client targets that same URL;
the region passed as a third constructor argument by the HTTP server is
dropped by JS (the constructor declares only apiKey and defaultAccountId), so
two sessions with different regions build identical clients. -/
theorem nerdgraph_url_process_global (env : Env) (a b r1 r2 : Option String)
    (c1 c2 : NewRelicClient) (h1 : c1.apiKey ≠ "") (h2 : c2.apiKey ≠ "") :
    mkClient3 env a b r1 = mkClient3 env a b r2
    ∧ mkClient3 env a b r1 = mkClient env a b
    ∧ nerdgraphRequest env c1
        = some { url := nerdgraphUrlFor env.region, apiKeyHeader := c1.apiKey }
    ∧ (nerdgraphRequest env c1).map SentRequest.url
        = (nerdgraphRequest env c2).map SentRequest.url := by
  refine ⟨rfl, rfl, ?_, ?_⟩ <;> simp [nerdgraphRequest, h1, h2]

/-- C9 witness: two sessions differing only in the region header produce the
same client, and two different clients send requests to the same module-level
URL. -/
theorem nerdgraph_url_process_global_witness :
    mkClient3 ⟨none, none, none⟩ (some "k") none (some "EU")
      = mkClient3 ⟨none, none, none⟩ (some "k") none (some "US")
    ∧ (nerdgraphRequest ⟨none, none, none⟩ ⟨"k1", none⟩).map SentRequest.url
        = (nerdgraphRequest ⟨none, none, none⟩ ⟨"k2", some "42"⟩).map SentRequest.url :=
  ⟨(nerdgraph_url_process_global ⟨none, none, none⟩ (some "k") none (some "EU")
      (some "US") ⟨"k1", none⟩ ⟨"k2", some "42"⟩ (by decide) (by decide)).1,
   (nerdgraph_url_process_global ⟨none, none, none⟩ (some "k") none (some "EU")
      (some "US") ⟨"k1", none⟩ ⟨"k2", some "42"⟩ (by decide) (by decide)).2.2.2⟩

/-- C10: a client built with an absent or empty apiKey argument silently falls
back to the NEW_RELIC_API_KEY environment value read at construction (and the
default account id to NEW_RELIC_ACCOUNT_ID); the per-call missing-key error,
raised before any request, occurs exactly when both the argument and the
environment variable are absent or empty. -/
theorem client_credential_fallback (env : Env) (a b : Option String)
    (fetch : Unit → FetchResponse (GraphQLResponse α)) :
    (∀ s, a = some s → s ≠ "" → (mkClient env a b).apiKey = s)
    ∧ ((a = none ∨ a = some "") → ∀ s, env.apiKey = some s → s ≠ "" →
        (mkClient env a b).apiKey = s)
    ∧ (∀ s, b = some s → s ≠ "" → (mkClient env a b).defaultAccountId = some s)
    ∧ ((b = none ∨ b = some "") → (mkClient env a b).defaultAccountId = env.accountId)
    ∧ (executeNerdGraphQuery (mkClient env a b) fetch = (.error missingKeyMsg, 0)
        ↔ ((a = none ∨ a = some "") ∧ (env.apiKey = none ∨ env.apiKey = some ""))) := by
  refine ⟨fun s hs hne => ?_, fun ha s hs hne => ?_, fun s hs hne => ?_,
    fun hb => ?_, ?_⟩
  · subst hs; simp [mkClient, jsOr, hne]
  · rcases ha with ha | ha <;> subst ha <;> simp [mkClient, jsOr, hs, hne]
  · subst hs; simp [mkClient, jsOr, hne]
  · rcases hb with hb | hb <;> subst hb <;> simp [mkClient, jsOr]
  · rw [← mkClient_apiKey_empty_iff env a b]
    constructor
    · intro h
      by_cases hk : (mkClient env a b).apiKey = ""
      · exact hk
      · exfalso
        have hcount : (executeNerdGraphQuery (mkClient env a b) fetch).2 = 1 := by
          simp only [executeNerdGraphQuery, if_neg hk]
          split
          · rfl
          · split <;> rfl
        rw [h] at hcount
        simp at hcount
    · intro h
      simp [executeNerdGraphQuery, h]

/-- C10 witness: a non-empty argument wins, an empty argument falls back to the
environment key, and the missing-key error occurs with both empty. -/
theorem client_credential_fallback_witness :
    (mkClient ⟨none, some "envkey", some "42"⟩ (some "argkey") none).apiKey = "argkey"
    ∧ (mkClient ⟨none, some "envkey", some "42"⟩ none none).apiKey = "envkey"
    ∧ (mkClient ⟨none, some "envkey", some "42"⟩ none none).defaultAccountId = some "42"
    ∧ executeNerdGraphQuery (α := Unit) (mkClient ⟨none, none, none⟩ none none)
        (fun _ => ⟨200, "OK", ⟨none, none⟩⟩) = (.error missingKeyMsg, 0) :=
  ⟨(client_credential_fallback (α := Unit) ⟨none, some "envkey", some "42"⟩
      (some "argkey") none (fun _ => ⟨200, "OK", ⟨none, none⟩⟩)).1
      "argkey" rfl (by decide),
   (client_credential_fallback (α := Unit) ⟨none, some "envkey", some "42"⟩
      none none (fun _ => ⟨200, "OK", ⟨none, none⟩⟩)).2.1
      (Or.inl rfl) "envkey" rfl (by decide),
   (client_credential_fallback (α := Unit) ⟨none, some "envkey", some "42"⟩
      none none (fun _ => ⟨200, "OK", ⟨none, none⟩⟩)).2.2.2.1
      (Or.inl rfl),
   ((client_credential_fallback (α := Unit) ⟨none, none, none⟩
      none none (fun _ => ⟨200, "OK", ⟨none, none⟩⟩)).2.2.2.2).mpr
      ⟨Or.inl rfl, Or.inl rfl⟩⟩

end NewRelic
